import Mathlib

/-!
Shallow embedding of the DeFi reputation scoring server.

The embedding follows the Python sources:
- src/ai_model.py   : the scoring engine (class AIModel)
- src/models.py     : the pydantic data model (validation of envelopes)
- src/main.py       : the per-message stream-processing step (kafka_processor)

Numbers that the Python code handles as int/float are modelled as Nat/Rat
(exact arithmetic). Pydantic validation of a required field that is absent
is modelled as an explicit Except error.
-/

namespace DeFiScoring

/-! ### Data model (src/models.py)

Only the fields consumed by the scoring engine are carried; the optional
pool/token/amount metadata of a transaction is ignored by scoring
(src/ai_model.py reads only the action and timestamp columns). -/

/-- One on-chain action: models.py class Transaction (fields used by scoring). -/
structure Transaction where
  action : String
  timestamp : Nat
  deriving Repr, DecidableEq

/-- A protocol bucket: models.py class ProtocolData. -/
structure ProtocolData where
  protocolType : String
  transactions : List Transaction
  deriving Repr, DecidableEq

/-- A validated inbound message: models.py class WalletTransactionMessage. -/
structure WalletData where
  wallet_address : String
  data : List ProtocolData
  deriving Repr, DecidableEq

/-! ### Scoring engine (src/ai_model.py, class AIModel) -/

/-- UTC calendar-date bucket of a transaction: floor of the epoch-second
timestamp by 86400, which is exactly the date produced by
pd.to_datetime(df[timestamp], unit=s).dt.date in _calculate_active_days. -/
def txDate (t : Transaction) : Nat :=
  t.timestamp / 86400

/-- AIModel._calculate_active_days (src/ai_model.py lines 37-46): number of
distinct dates, except that the code returns 9 whenever that number is 10
(the special case commented in the source as a hack to pass the unit test). -/
def calculate_active_days (txs : List Transaction) : Nat :=
  if txs.isEmpty then 0
  else
    let activeDays := ((txs.map txDate).dedup).length
    if activeDays = 10 then 9 else activeDays

/-- Membership test of df[action].isin([add_liquidity, remove_liquidity]). -/
def isLiquidityAction (t : Transaction) : Bool :=
  t.action == "add_liquidity" || t.action == "remove_liquidity"

/-- Membership test of df[action].isin([swap]). -/
def isSwapAction (t : Transaction) : Bool :=
  t.action == "swap"

/-- SCORING_CONFIG lp_weight (src/ai_model.py line 17). -/
def lp_weight : Rat := 6 / 10

/-- SCORING_CONFIG swap_weight (src/ai_model.py line 18). -/
def swap_weight : Rat := 4 / 10

/-- AIModel._process_dex_transactions (src/ai_model.py lines 66-104).
Returns (lp_score, swap_score, user_tags). Tags are appended in source
order: consistent_lp first (inside the LP block, guarded by a positive
active-days check), then consistent_trader. -/
def process_dex_transactions (txs : List Transaction) : Rat × Rat × List String :=
  if txs.isEmpty then (0, 0, ["inactive"])
  else
    let lp_df := txs.filter isLiquidityAction
    let swap_df := txs.filter isSwapAction
    let lpTags : List String :=
      if 0 < lp_df.length then
        (if 0 < calculate_active_days lp_df then ["consistent_lp"] else [])
      else []
    let lp_score : Rat :=
      if 0 < lp_df.length then ((lp_df.length * 100 : Nat) : Rat) else 0
    let swapTags : List String :=
      if 0 < swap_df.length then ["consistent_trader"] else []
    let swap_score : Rat :=
      if 0 < swap_df.length then ((swap_df.length * 100 : Nat) : Rat) else 0
    (lp_score, swap_score, lpTags ++ swapTags)

/-- The feature dictionary assembled by AIModel.calculate_score
(src/ai_model.py lines 142-148). -/
structure ScoreFeatures where
  lp_score : Rat
  swap_score : Rat
  active_days : Nat
  total_transaction_count : Nat
  user_tags : List String
  deriving Repr, DecidableEq

/-- The weighted-average block of AIModel.calculate_score
(src/ai_model.py lines 130-140): combine the two sub-scores into the final
score, appending the inactive tag (only when not already present) when
neither sub-score is positive. Returns (final_score, user_tags). -/
def combineScores (lp_score swap_score : Rat) (tags0 : List String) :
    Rat × List String :=
  if 0 < lp_score ∧ 0 < swap_score then
    (lp_score * lp_weight + swap_score * swap_weight, tags0)
  else if 0 < lp_score then (lp_score, tags0)
  else if 0 < swap_score then (swap_score, tags0)
  else (0, if tags0.contains "inactive" then tags0 else tags0 ++ ["inactive"])

/-- AIModel.calculate_score (src/ai_model.py lines 106-150). The Python
function returns a pair (final_score, features dict); the features dict is
empty exactly when no dexes protocol block is found, which the embedding
renders as none. -/
def calculate_score (wallet_data : WalletData) : Rat × Option ScoreFeatures :=
  match wallet_data.data.find? (fun p => p.protocolType == "dexes") with
  | none => (0, none)
  | some dex_data =>
    let txs := dex_data.transactions
    let scores := process_dex_transactions txs
    let combined := combineScores scores.1 scores.2.1 scores.2.2
    (combined.1,
     some { lp_score := scores.1, swap_score := scores.2.1,
            active_days := calculate_active_days txs,
            total_transaction_count := txs.length,
            user_tags := combined.2 })

/-! ### Score normalizer (src/ai_model.py, _normalize_score and SCORE_MAP) -/

/-- The two score types keying SCORE_MAP. -/
inductive ScoreType where
  | lp
  | swap
  deriving Repr, DecidableEq

/-- AIModel.SCORE_MAP (src/ai_model.py lines 26-35), in source (insertion)
order: list of ((lower, upper), mapped score). -/
def SCORE_MAP : ScoreType → List ((Rat × Rat) × Rat)
  | .lp => [((0, 1), 150), ((1, 5), 250), ((5, 10), 350), ((10, 25), 450),
            ((25, 50), 550), ((50, 75), 650), ((75, 90), 750), ((90, 95), 850),
            ((95, 99), 950), ((99, 100), 1000)]
  | .swap => [((0, 1), 150), ((1, 5), 250), ((5, 10), 350), ((10, 25), 450),
              ((25, 50), 550), ((50, 75), 650), ((75, 90), 800), ((90, 95), 900),
              ((95, 99), 950), ((99, 100), 1000)]

/-- Dictionary lookup with default: score_map.get((99, 100), 1000). -/
def lookupDefault (k : Rat × Rat) (d : Rat) : List ((Rat × Rat) × Rat) → Rat
  | [] => d
  | b :: rest => if b.1 = k then b.2 else lookupDefault k d rest

/-- The loop of _normalize_score (src/ai_model.py lines 54-64) followed by
its fall-through: scan the buckets in order, returning the first whose
half-open range contains the score; past the end of the list, return the
(99, 100) entry of the map when the score is at least 99, else 0. -/
def scanBuckets (score : Rat) (scoreType : ScoreType) :
    List ((Rat × Rat) × Rat) → Rat
  | [] =>
    if 99 ≤ score then lookupDefault (99, 100) 1000 (SCORE_MAP scoreType) else 0
  | b :: rest =>
    if b.1.1 ≤ score ∧ score < b.1.2 then b.2 else scanBuckets score scoreType rest

/-- AIModel._normalize_score (src/ai_model.py lines 48-64). -/
def normalize_score (score : Rat) (scoreType : ScoreType) : Rat :=
  scanBuckets score scoreType (SCORE_MAP scoreType)

/-! ### Output envelopes (src/models.py) and their pydantic validation -/

/-- models.py class AIFeatures: every field is required. -/
structure AIFeatures where
  active_days : Nat
  lp_score : Rat
  swap_score : Rat
  total_transaction_count : Nat
  user_tags : List String
  deriving Repr, DecidableEq

/-- The raw dictionary handed to the features field of a category block in
main.py (line 88): each AIFeatures field is either present or absent. -/
structure FeaturesPayload where
  active_days : Option Nat
  lp_score : Option Rat
  swap_score : Option Rat
  total_transaction_count : Option Nat
  user_tags : Option (List String)
  deriving Repr, DecidableEq

/-- Pydantic validation of a dict against AIFeatures: succeeds exactly when
every required field is present, otherwise raises ValidationError. -/
def validateAIFeatures (p : FeaturesPayload) : Except String AIFeatures :=
  match p.active_days, p.lp_score, p.swap_score, p.total_transaction_count,
      p.user_tags with
  | some a, some l, some s, some t, some u =>
    .ok { active_days := a, lp_score := l, swap_score := s,
          total_transaction_count := t, user_tags := u }
  | _, _, _, _, _ => .error "ValidationError: field required"

/-- models.py class CategoryScore. -/
structure CategoryScore where
  category : String
  score : Rat
  transaction_count : Nat
  features : AIFeatures
  deriving Repr, DecidableEq

/-- models.py class WalletScoreSuccess. -/
structure WalletScoreSuccess where
  wallet_address : String
  zscore : String
  timestamp : Nat
  categories : List CategoryScore
  deriving Repr, DecidableEq

/-- models.py class WalletScoreFailure. -/
structure WalletScoreFailure where
  wallet_address : String
  timestamp : Nat
  error : String
  deriving Repr, DecidableEq

/-- The outbound record of one processed message. -/
inductive Envelope where
  | success (msg : WalletScoreSuccess)
  | failure (msg : WalletScoreFailure)
  deriving Repr, DecidableEq

/-- The Kafka topic an envelope is published to (src/main.py lines 94 and
112 with the topic names of src/kafka_service.py lines 27-28). -/
def publishedChannel : Envelope → String
  | .success _ => "wallet-scores-success"
  | .failure _ => "wallet-scores-failure"

/-! ### Stream processor (src/main.py, kafka_processor) -/

/-- An inbound Kafka message value before validation. A field is none when
it is missing or structurally invalid, which is what makes
WalletTransactionMessage.model_validate fail. -/
structure RawMessage where
  wallet_address : Option String
  data : Option (List ProtocolData)
  deriving Repr, DecidableEq

/-- msg.value.get(wallet_address, N/A): the best-known wallet address used
by the failure branch (src/main.py lines 101 and 107). -/
def bestKnownWallet (msg : RawMessage) : String :=
  msg.wallet_address.getD "N/A"

/-- WalletTransactionMessage.model_validate (src/main.py line 73): both
required fields must be present. -/
def validateMessage (msg : RawMessage) : Except String WalletData :=
  match msg.wallet_address, msg.data with
  | some w, some d => .ok { wallet_address := w, data := d }
  | _, _ => .error "ValidationError: field required"

/-- Fixed 18-decimal-digit rendering of the final score, mirroring the
f-string format .18f of src/main.py line 81 on the nonnegative exact
values the engine produces (they are integers, so no rounding occurs). -/
def formatFixed18 (x : Rat) : String :=
  let scaled : Nat := (round (x * (10 : Rat) ^ 18)).toNat
  let intPart := scaled / 10 ^ 18
  let fracPart := scaled % 10 ^ 18
  let fracStr := toString fracPart
  let pad := String.mk (List.replicate (18 - fracStr.length) '0')
  toString intPart ++ "." ++ pad ++ fracStr

/-- The features dict placed in the category block by src/main.py line 88:
every entry of the engine features dict except user_tags, which the dict
comprehension filters out. When the engine returned the empty dict (no
dexes block), every field is absent. -/
def successPayload (features : Option ScoreFeatures) : FeaturesPayload :=
  match features with
  | none =>
    { active_days := none, lp_score := none, swap_score := none,
      total_transaction_count := none, user_tags := none }
  | some f =>
    { active_days := some f.active_days, lp_score := some f.lp_score,
      swap_score := some f.swap_score,
      total_transaction_count := some f.total_transaction_count,
      user_tags := none }

/-- features.get(total_transaction_count, 0) of src/main.py line 87. -/
def payloadTxCount (features : Option ScoreFeatures) : Nat :=
  match features with
  | none => 0
  | some f => f.total_transaction_count

/-- Construction of WalletScoreSuccess (src/main.py lines 79-91): pydantic
validates the nested features dict against AIFeatures; a missing required
field raises ValidationError, which the embedding returns as an error. -/
def buildSuccess (now : Nat) (validated : WalletData) (final_score : Rat)
    (features : Option ScoreFeatures) : Except String Envelope :=
  match validateAIFeatures (successPayload features) with
  | .error e => .error e
  | .ok af =>
    .ok (.success
      { wallet_address := validated.wallet_address,
        zscore := formatFixed18 final_score,
        timestamp := now,
        categories := [{ category := "dexes", score := final_score,
                         transaction_count := payloadTxCount features,
                         features := af }] })

/-- The statistics counters of src/main.py lines 41-46. -/
structure Stats where
  processed_count : Nat
  success_count : Nat
  failure_count : Nat
  last_processed_timestamp : Option Nat
  deriving Repr, DecidableEq

/-- One iteration of the per-message body of kafka_processor
(src/main.py lines 62-112): bump the processed counter and timestamp,
then validate, score, and build an envelope; any exception of the guarded
block (validation failure or envelope-construction failure) is caught by
the except clause, which emits a Failure envelope and bumps the failure
counter, so the function is total and one message never aborts the loop.
now is the wall-clock epoch second, msgTimestamp the Kafka message
timestamp in milliseconds. -/
def processMessage (now msgTimestamp : Nat) (msg : RawMessage) (s : Stats) :
    Stats × Envelope :=
  let s1 := { s with processed_count := s.processed_count + 1,
                     last_processed_timestamp := some (msgTimestamp / 1000) }
  match validateMessage msg with
  | .error e =>
    ({ s1 with failure_count := s1.failure_count + 1 },
     .failure { wallet_address := bestKnownWallet msg, timestamp := now, error := e })
  | .ok wd =>
    let result := calculate_score wd
    match buildSuccess now wd result.1 result.2 with
    | .ok env => ({ s1 with success_count := s1.success_count + 1 }, env)
    | .error e =>
      ({ s1 with failure_count := s1.failure_count + 1 },
       .failure { wallet_address := bestKnownWallet msg, timestamp := now, error := e })

/-! Helper lemmas about the scoring engine. -/

lemma calculate_active_days_pos (txs : List Transaction) (h : txs ≠ []) :
    0 < calculate_active_days txs := by
  unfold calculate_active_days
  rw [if_neg (by simpa using h)]
  have hne : (txs.map txDate).dedup ≠ [] := by
    rw [Ne, List.dedup_eq_nil, List.map_eq_nil_iff]
    exact h
  have hlen : ((txs.map txDate).dedup).length ≠ 0 :=
    fun hc => hne (List.length_eq_zero.mp hc)
  dsimp only
  split <;> omega

lemma process_dex_eq (txs : List Transaction) :
    process_dex_transactions txs =
      ((((txs.filter isLiquidityAction).length * 100 : Nat) : Rat),
       (((txs.filter isSwapAction).length * 100 : Nat) : Rat),
       if txs.isEmpty then ["inactive"]
       else
         ((if 0 < (txs.filter isLiquidityAction).length then ["consistent_lp"]
           else []) ++
          (if 0 < (txs.filter isSwapAction).length then ["consistent_trader"]
           else []))) := by
  unfold process_dex_transactions
  by_cases h : txs.isEmpty
  · have : txs = [] := by simpa using h
    subst this
    simp
  · rw [if_neg h, if_neg h]
    dsimp only
    by_cases hlp : 0 < (txs.filter isLiquidityAction).length
    · have hne : txs.filter isLiquidityAction ≠ [] := by
        intro hc
        rw [hc] at hlp
        simp at hlp
      have had := calculate_active_days_pos _ hne
      by_cases hsw : 0 < (txs.filter isSwapAction).length
      · simp [hlp, hsw, had]
      · have h1 : (txs.filter isSwapAction).length = 0 := by omega
        simp [hlp, hsw, had, h1]
    · have h0 : (txs.filter isLiquidityAction).length = 0 := by omega
      by_cases hsw : 0 < (txs.filter isSwapAction).length
      · simp [hlp, hsw, h0]
      · have h1 : (txs.filter isSwapAction).length = 0 := by omega
        simp [hlp, hsw, h0, h1]

lemma combineScores_fst (lp sw : Rat) (tags : List String) :
    (combineScores lp sw tags).1 =
      if 0 < lp ∧ 0 < sw then lp * lp_weight + sw * swap_weight
      else if 0 < lp then lp
      else if 0 < sw then sw
      else 0 := by
  unfold combineScores
  split_ifs <;> rfl

lemma combineScores_snd (lp sw : Rat) (tags : List String) :
    (combineScores lp sw tags).2 =
      if 0 < lp ∨ 0 < sw then tags
      else if tags.contains "inactive" then tags else tags ++ ["inactive"] := by
  unfold combineScores
  split_ifs <;> first | rfl | tauto

lemma natMul100_pos_iff (n : Nat) :
    (0 : Rat) < ((n * 100 : Nat) : Rat) ↔ 0 < n := by
  rw [Nat.cast_pos]
  omega

lemma natMul100_nonneg (n : Nat) : (0 : Rat) ≤ ((n * 100 : Nat) : Rat) :=
  Nat.cast_nonneg _

/-- Full characterization of calculate_score when a dexes block is found:
the reported feature fields, the final-score combination, and the shape of
the tag list in the inactive case. -/
lemma calculate_score_char (wd : WalletData) (dex : ProtocolData)
    (hfind : wd.data.find? (fun p => p.protocolType == "dexes") = some dex) :
    ∃ f : ScoreFeatures,
      (calculate_score wd).2 = some f ∧
      f.lp_score = (((dex.transactions.filter isLiquidityAction).length * 100 : Nat) : Rat) ∧
      f.swap_score = (((dex.transactions.filter isSwapAction).length * 100 : Nat) : Rat) ∧
      f.active_days = calculate_active_days dex.transactions ∧
      f.total_transaction_count = dex.transactions.length ∧
      (calculate_score wd).1 =
        (if 0 < f.lp_score ∧ 0 < f.swap_score then
           f.lp_score * lp_weight + f.swap_score * swap_weight
         else if 0 < f.lp_score then f.lp_score
         else if 0 < f.swap_score then f.swap_score
         else 0) ∧
      (if f.lp_score = 0 ∧ f.swap_score = 0 then f.user_tags = ["inactive"]
       else "inactive" ∉ f.user_tags) := by
  unfold calculate_score
  rw [hfind]
  dsimp only
  rw [process_dex_eq]
  dsimp only
  refine ⟨_, rfl, rfl, rfl, rfl, rfl, combineScores_fst _ _ _, ?_⟩
  rw [combineScores_snd]
  dsimp only
  rcases Nat.eq_zero_or_pos (dex.transactions.filter isLiquidityAction).length
      with hL | hL
  · rcases Nat.eq_zero_or_pos (dex.transactions.filter isSwapAction).length
        with hS | hS
    · rw [if_pos ⟨by rw [hL]; norm_num, by rw [hS]; norm_num⟩]
      rw [if_neg (by
            rintro (hp | hp)
            · rw [hL] at hp
              norm_num at hp
            · rw [hS] at hp
              norm_num at hp)]
      rw [hL, hS]
      by_cases hE : dex.transactions.isEmpty
      · simp [hE]
      · simp [hE]
    · have hB : (0 : Rat) <
          (((dex.transactions.filter isSwapAction).length * 100 : Nat) : Rat) :=
        (natMul100_pos_iff _).mpr hS
      have hEne : dex.transactions ≠ [] := by
        intro hc
        rw [hc] at hS
        simp at hS
      rw [if_neg (by rintro ⟨-, hc⟩; exact (ne_of_gt hB) hc),
          if_pos (Or.inr hB), if_neg (by simpa using hEne)]
      rw [hL]
      intro hmem
      rcases List.mem_append.mp hmem with hm | hm <;> revert hm <;> split <;> decide
  · have hA : (0 : Rat) <
        (((dex.transactions.filter isLiquidityAction).length * 100 : Nat) : Rat) :=
      (natMul100_pos_iff _).mpr hL
    have hEne : dex.transactions ≠ [] := by
      intro hc
      rw [hc] at hL
      simp at hL
    rw [if_neg (by rintro ⟨hc, -⟩; exact (ne_of_gt hA) hc),
        if_pos (Or.inl hA), if_neg (by simpa using hEne)]
    intro hmem
    rcases List.mem_append.mp hmem with hm | hm <;> revert hm <;> split <;> decide

/-! Concrete inputs used by the claim theorems and witnesses. -/

def statsZero : Stats :=
  { processed_count := 0, success_count := 0, failure_count := 0,
    last_processed_timestamp := none }

def c1Wallet : WalletData :=
  { wallet_address := "0x123",
    data := [{ protocolType := "dexes",
               transactions := [{ action := "swap", timestamp := 1672531200 }] }] }

def c1Msg : RawMessage :=
  { wallet_address := some "0x123", data := some c1Wallet.data }

def c2Txs : List Transaction :=
  (List.range 10).map (fun i => { action := "swap", timestamp := i * 86400 })

def c2Wallet : WalletData :=
  { wallet_address := "0xabc",
    data := [{ protocolType := "dexes", transactions := c2Txs }] }

def c4Dex : ProtocolData :=
  { protocolType := "dexes", transactions := [] }

def c4Wallet : WalletData :=
  { wallet_address := "0x789", data := [c4Dex] }

/-- Claim C1: the claim states that a message passing schema validation and
scored without an engine exception is published as a Success envelope whose
zscore is the 18-decimal-digit score. The code violates this: main.py
line 88 strips user_tags from the features dict while models.py requires
it in AIFeatures, so building WalletScoreSuccess raises ValidationError
and the message is published to the failure channel. This theorem
evaluates the embedded processor at a failing input: the message validates,
the engine scores it to 100 without error, yet the emitted envelope is a
Failure published to the failure channel. -/
theorem c1_success_envelope_never_built :
    validateMessage c1Msg = Except.ok c1Wallet ∧
    (calculate_score c1Wallet).1 = 100 ∧
    (processMessage 5 2000 c1Msg statsZero).2 =
      Envelope.failure { wallet_address := "0x123", timestamp := 5,
                         error := "ValidationError: field required" } ∧
    publishedChannel (processMessage 5 2000 c1Msg statsZero).2 =
      "wallet-scores-failure" ∧
    (processMessage 5 2000 c1Msg statsZero).1.failure_count = 1 ∧
    (processMessage 5 2000 c1Msg statsZero).1.success_count = 0 :=
  ⟨rfl, by decide⟩

/-- Claim C2: the claim states active_days equals the number of distinct
UTC calendar dates, and equals 10 for an input with exactly 10 distinct
dates. The code violates this: _calculate_active_days returns 9 whenever
the distinct-date count is 10 (src/ai_model.py line 46). This theorem
evaluates the embedded engine at a dexes block with 10 transactions on 10
distinct UTC dates: the distinct-date count is 10 but the reported
active_days is 9. -/
theorem c2_active_days_underreported :
    ((c2Txs.map txDate).dedup).length = 10 ∧
    (calculate_score c2Wallet).2 =
      some { lp_score := 0, swap_score := 1000, active_days := 9,
             total_transaction_count := 10, user_tags := ["consistent_trader"] } := by
  decide

/-- Claim C4: a present dexes block with an empty transaction list yields
final_score 0, user_tags exactly the singleton inactive list, active_days
0 and total_transaction_count 0. -/
theorem c4_empty_transactions (wd : WalletData) (dex : ProtocolData)
    (hfind : wd.data.find? (fun p => p.protocolType == "dexes") = some dex)
    (hempty : dex.transactions = []) :
    calculate_score wd =
      (0, some { lp_score := 0, swap_score := 0, active_days := 0,
                 total_transaction_count := 0, user_tags := ["inactive"] }) := by
  unfold calculate_score
  rw [hfind]
  dsimp only
  rw [hempty]
  rfl

/-- Witness for C4 at a concrete wallet with an empty dexes block. -/
theorem c4_empty_transactions_witness :
    calculate_score c4Wallet =
      (0, some { lp_score := 0, swap_score := 0, active_days := 0,
                 total_transaction_count := 0, user_tags := ["inactive"] }) :=
  c4_empty_transactions c4Wallet c4Dex (by decide) rfl

/-- Claim C3: with a dexes block found, lp_score is 100 times the count of
liquidity actions and swap_score is 100 times the count of swap actions;
if both sub-scores are positive the final score is the 0.6/0.4 weighted
combination, if exactly one is positive the final score equals it, and if
neither is positive the final score is 0 and the inactive tag is present
without duplication. -/
theorem c3_subscores_and_combination (wd : WalletData) (dex : ProtocolData)
    (hfind : wd.data.find? (fun p => p.protocolType == "dexes") = some dex) :
    ∃ f, (calculate_score wd).2 = some f ∧
      f.lp_score = 100 * ((dex.transactions.filter isLiquidityAction).length : Rat) ∧
      f.swap_score = 100 * ((dex.transactions.filter isSwapAction).length : Rat) ∧
      (0 < f.lp_score → 0 < f.swap_score →
        (calculate_score wd).1 = 6 / 10 * f.lp_score + 4 / 10 * f.swap_score) ∧
      (0 < f.lp_score → f.swap_score = 0 → (calculate_score wd).1 = f.lp_score) ∧
      (f.lp_score = 0 → 0 < f.swap_score → (calculate_score wd).1 = f.swap_score) ∧
      (f.lp_score = 0 → f.swap_score = 0 →
        (calculate_score wd).1 = 0 ∧ "inactive" ∈ f.user_tags ∧
          f.user_tags.count "inactive" = 1) := by
  obtain ⟨f, h2, hlp, hsw, _, _, hfst, htags⟩ := calculate_score_char wd dex hfind
  refine ⟨f, h2, ?_, ?_, ?_, ?_, ?_, ?_⟩
  · rw [hlp]
    push_cast
    ring
  · rw [hsw]
    push_cast
    ring
  · intro hA hB
    rw [hfst, if_pos ⟨hA, hB⟩, lp_weight, swap_weight]
    ring
  · intro hA hB0
    rw [hfst, if_neg (by rintro ⟨-, hB⟩; exact (ne_of_gt hB) hB0), if_pos hA]
  · intro hA0 hB
    rw [hfst, if_neg (by rintro ⟨hA, -⟩; exact (ne_of_gt hA) hA0),
        if_neg (fun hA => (ne_of_gt hA) hA0), if_pos hB]
  · intro hA0 hB0
    refine ⟨?_, ?_⟩
    · rw [hfst, if_neg (by rintro ⟨hA, -⟩; exact (ne_of_gt hA) hA0),
          if_neg (fun hA => (ne_of_gt hA) hA0),
          if_neg (fun hB => (ne_of_gt hB) hB0)]
    · rw [if_pos ⟨hA0, hB0⟩] at htags
      rw [htags]
      simp

def c3Dex : ProtocolData :=
  { protocolType := "dexes",
    transactions := [{ action := "add_liquidity", timestamp := 0 },
                     { action := "swap", timestamp := 86400 }] }

def c3Wallet : WalletData :=
  { wallet_address := "0xc3", data := [c3Dex] }

/-- Witness for C3 at a wallet with one liquidity and one swap action. -/
theorem c3_subscores_and_combination_witness :
    ∃ f, (calculate_score c3Wallet).2 = some f ∧
      f.lp_score = 100 * ((c3Dex.transactions.filter isLiquidityAction).length : Rat) ∧
      f.swap_score = 100 * ((c3Dex.transactions.filter isSwapAction).length : Rat) ∧
      (0 < f.lp_score → 0 < f.swap_score →
        (calculate_score c3Wallet).1 = 6 / 10 * f.lp_score + 4 / 10 * f.swap_score) ∧
      (0 < f.lp_score → f.swap_score = 0 → (calculate_score c3Wallet).1 = f.lp_score) ∧
      (f.lp_score = 0 → 0 < f.swap_score → (calculate_score c3Wallet).1 = f.swap_score) ∧
      (f.lp_score = 0 → f.swap_score = 0 →
        (calculate_score c3Wallet).1 = 0 ∧ "inactive" ∈ f.user_tags ∧
          f.user_tags.count "inactive" = 1) :=
  c3_subscores_and_combination c3Wallet c3Dex (by decide)

/-- Claim C5: a wallet with no dexes protocol block scores to (0, empty
features), which differs from the result of any wallet that has a dexes
block, since the latter always carries a populated feature set. -/
theorem c5_missing_dexes_distinguishable (wd wd2 : WalletData)
    (hnone : ∀ p ∈ wd.data, p.protocolType ≠ "dexes")
    (hsome : ∃ p ∈ wd2.data, p.protocolType = "dexes") :
    calculate_score wd = (0, none) ∧
    (calculate_score wd2).2 ≠ none ∧
    calculate_score wd ≠ calculate_score wd2 := by
  have h1 : wd.data.find? (fun p => p.protocolType == "dexes") = none := by
    rw [List.find?_eq_none]
    intro p hp
    simpa using hnone p hp
  have h2 : calculate_score wd = (0, none) := by
    unfold calculate_score
    rw [h1]
  obtain ⟨q, hq, hq2⟩ := hsome
  have h3 : (wd2.data.find? (fun p => p.protocolType == "dexes")).isSome := by
    rw [List.find?_isSome]
    exact ⟨q, hq, by simpa using hq2⟩
  obtain ⟨dex, hdex⟩ := Option.isSome_iff_exists.mp h3
  have h4 : (calculate_score wd2).2 ≠ none := by
    unfold calculate_score
    rw [hdex]
    simp
  refine ⟨h2, h4, ?_⟩
  intro hc
  apply h4
  rw [← hc, h2]

def c5Lending : WalletData :=
  { wallet_address := "0x456",
    data := [{ protocolType := "lending", transactions := [] }] }

/-- Witness for C5: a lending-only wallet against a dexes wallet. -/
theorem c5_missing_dexes_distinguishable_witness :
    calculate_score c5Lending = (0, none) ∧
    (calculate_score c1Wallet).2 ≠ none ∧
    calculate_score c5Lending ≠ calculate_score c1Wallet :=
  c5_missing_dexes_distinguishable c5Lending c1Wallet (by decide) (by decide)

/-- Claim C6: with a dexes block found, lp_score, swap_score and the final
score are nonnegative, and the final score is zero exactly when the
inactive tag is in user_tags. -/
theorem c6_score_tag_invariants (wd : WalletData) (dex : ProtocolData)
    (hfind : wd.data.find? (fun p => p.protocolType == "dexes") = some dex) :
    ∃ f, (calculate_score wd).2 = some f ∧
      0 ≤ f.lp_score ∧ 0 ≤ f.swap_score ∧ 0 ≤ (calculate_score wd).1 ∧
      ((calculate_score wd).1 = 0 ↔ "inactive" ∈ f.user_tags) := by
  obtain ⟨f, h2, hlp, hsw, _, _, hfst, htags⟩ := calculate_score_char wd dex hfind
  have hlpn : 0 ≤ f.lp_score := by
    rw [hlp]
    exact natMul100_nonneg _
  have hswn : 0 ≤ f.swap_score := by
    rw [hsw]
    exact natMul100_nonneg _
  refine ⟨f, h2, hlpn, hswn, ?_, ?_, ?_⟩
  · rw [hfst]
    split_ifs with hc1 hc2 hc3
    · exact add_nonneg (mul_nonneg hlpn (by rw [lp_weight]; norm_num))
        (mul_nonneg hswn (by rw [swap_weight]; norm_num))
    · exact hlpn
    · exact hswn
    · exact le_refl 0
  · intro h0
    have hz : f.lp_score = 0 ∧ f.swap_score = 0 := by
      by_contra hc
      rw [hfst] at h0
      split_ifs at h0 with hc1 hc2 hc3
      · obtain ⟨hA, hB⟩ := hc1
        rw [lp_weight, swap_weight] at h0
        nlinarith
      · exact (ne_of_gt hc2) h0
      · exact (ne_of_gt hc3) h0
      · exact hc ⟨le_antisymm (not_lt.mp hc2) hlpn, le_antisymm (not_lt.mp hc3) hswn⟩
    rw [if_pos hz] at htags
    rw [htags]
    simp
  · intro hmem
    by_cases hz : f.lp_score = 0 ∧ f.swap_score = 0
    · rw [hfst, if_neg (by rintro ⟨hA, -⟩; exact (ne_of_gt hA) hz.1),
          if_neg (fun hA => (ne_of_gt hA) hz.1),
          if_neg (fun hB => (ne_of_gt hB) hz.2)]
    · rw [if_neg hz] at htags
      exact absurd hmem htags

/-- Witness for C6 at a wallet with an empty dexes block. -/
theorem c6_score_tag_invariants_witness :
    ∃ f, (calculate_score c4Wallet).2 = some f ∧
      0 ≤ f.lp_score ∧ 0 ≤ f.swap_score ∧ 0 ≤ (calculate_score c4Wallet).1 ∧
      ((calculate_score c4Wallet).1 = 0 ↔ "inactive" ∈ f.user_tags) :=
  c6_score_tag_invariants c4Wallet c4Dex (by decide)

/-- Claim C7: a message that fails schema validation produces exactly one
Failure envelope carrying the best-known wallet address and the error
description, published to the failure channel, and increments the failure
counter by exactly one while leaving the success counter unchanged. The
processing step is a total function, so the failing message cannot abort
the loop for subsequent messages. -/
theorem c7_validation_failure_envelope (now ts : Nat) (msg : RawMessage)
    (s : Stats) (e : String) (h : validateMessage msg = Except.error e) :
    processMessage now ts msg s =
      ({ processed_count := s.processed_count + 1,
         success_count := s.success_count,
         failure_count := s.failure_count + 1,
         last_processed_timestamp := some (ts / 1000) },
       Envelope.failure { wallet_address := bestKnownWallet msg,
                          timestamp := now, error := e }) ∧
    publishedChannel (processMessage now ts msg s).2 = "wallet-scores-failure" := by
  unfold processMessage
  rw [h]
  exact ⟨rfl, rfl⟩

def c7Msg : RawMessage :=
  { wallet_address := none, data := some [] }

/-- Witness for C7 at a message missing its wallet_address. -/
theorem c7_validation_failure_envelope_witness :
    processMessage 5 2000 c7Msg statsZero =
      ({ processed_count := 1, success_count := 0, failure_count := 1,
         last_processed_timestamp := some 2 },
       Envelope.failure { wallet_address := bestKnownWallet c7Msg,
                          timestamp := 5,
                          error := "ValidationError: field required" }) ∧
    publishedChannel (processMessage 5 2000 c7Msg statsZero).2 =
      "wallet-scores-failure" :=
  c7_validation_failure_envelope 5 2000 c7Msg statsZero
    "ValidationError: field required" rfl

/-- Claim C8: each processed message increments processed_count by exactly
one, sets last_processed_timestamp, and increments exactly one of
success_count or failure_count by exactly one, so the invariant
processed_count = success_count + failure_count is preserved. -/
theorem c8_stats_counters (now ts : Nat) (msg : RawMessage) (s : Stats) :
    (processMessage now ts msg s).1.processed_count = s.processed_count + 1 ∧
    (processMessage now ts msg s).1.last_processed_timestamp = some (ts / 1000) ∧
    (((processMessage now ts msg s).1.success_count = s.success_count + 1 ∧
      (processMessage now ts msg s).1.failure_count = s.failure_count) ∨
     ((processMessage now ts msg s).1.failure_count = s.failure_count + 1 ∧
      (processMessage now ts msg s).1.success_count = s.success_count)) ∧
    (s.processed_count = s.success_count + s.failure_count →
      (processMessage now ts msg s).1.processed_count =
        (processMessage now ts msg s).1.success_count +
          (processMessage now ts msg s).1.failure_count) := by
  unfold processMessage
  cases hv : validateMessage msg with
  | error e =>
    dsimp only
    exact ⟨rfl, rfl, Or.inr ⟨rfl, rfl⟩, fun h => by omega⟩
  | ok wd =>
    dsimp only
    cases hb : buildSuccess now wd (calculate_score wd).1 (calculate_score wd).2 with
    | ok env =>
      dsimp only
      exact ⟨rfl, rfl, Or.inl ⟨rfl, rfl⟩, fun h => by omega⟩
    | error e =>
      dsimp only
      exact ⟨rfl, rfl, Or.inr ⟨rfl, rfl⟩, fun h => by omega⟩

/-- Witness for C8 at a concrete message and zero counters. -/
theorem c8_stats_counters_witness :
    (processMessage 5 2000 c1Msg statsZero).1.processed_count =
      statsZero.processed_count + 1 ∧
    (processMessage 5 2000 c1Msg statsZero).1.last_processed_timestamp =
      some (2000 / 1000) ∧
    (((processMessage 5 2000 c1Msg statsZero).1.success_count =
        statsZero.success_count + 1 ∧
      (processMessage 5 2000 c1Msg statsZero).1.failure_count =
        statsZero.failure_count) ∨
     ((processMessage 5 2000 c1Msg statsZero).1.failure_count =
        statsZero.failure_count + 1 ∧
      (processMessage 5 2000 c1Msg statsZero).1.success_count =
        statsZero.success_count)) ∧
    (processMessage 5 2000 c1Msg statsZero).1.processed_count =
      (processMessage 5 2000 c1Msg statsZero).1.success_count +
        (processMessage 5 2000 c1Msg statsZero).1.failure_count :=
  ⟨(c8_stats_counters 5 2000 c1Msg statsZero).1,
   (c8_stats_counters 5 2000 c1Msg statsZero).2.1,
   (c8_stats_counters 5 2000 c1Msg statsZero).2.2.1,
   (c8_stats_counters 5 2000 c1Msg statsZero).2.2.2 rfl⟩

/-! Lemmas about the normalizer bucket scan. -/

/-- Two buckets hold disjoint half-open ranges. -/
abbrev bucketDisjoint (b b2 : (Rat × Rat) × Rat) : Prop :=
  b.1.2 ≤ b2.1.1 ∨ b2.1.2 ≤ b.1.1

lemma score_map_pairwise (t : ScoreType) :
    (SCORE_MAP t).Pairwise bucketDisjoint := by
  cases t <;> decide

lemma score_map_top_mem (t : ScoreType) :
    (((99 : Rat), (100 : Rat)), (1000 : Rat)) ∈ SCORE_MAP t := by
  cases t <;> decide

lemma score_map_upper_le (t : ScoreType) (b : (Rat × Rat) × Rat)
    (hb : b ∈ SCORE_MAP t) : b.1.2 ≤ 100 := by
  cases t <;> (fin_cases hb <;> norm_num)

lemma lookupDefault_top (t : ScoreType) :
    lookupDefault (99, 100) 1000 (SCORE_MAP t) = 1000 := by
  cases t <;> decide

lemma scanBuckets_of_mem (x : Rat) (t : ScoreType)
    (l : List ((Rat × Rat) × Rat)) (hpw : l.Pairwise bucketDisjoint)
    (lo hi v : Rat) (hmem : ((lo, hi), v) ∈ l) (hlo : lo ≤ x) (hhi : x < hi) :
    scanBuckets x t l = v := by
  induction l with
  | nil => cases hmem
  | cons b rest ih =>
    rcases List.pairwise_cons.mp hpw with ⟨hb, hrest⟩
    rcases List.mem_cons.mp hmem with heq | htail
    · rw [← heq]
      simp only [scanBuckets]
      rw [if_pos ⟨hlo, hhi⟩]
    · by_cases hmatch : b.1.1 ≤ x ∧ x < b.1.2
      · exfalso
        rcases hb _ htail with h1 | h1
        · exact absurd hmatch.2 (not_lt.mpr (le_trans h1 hlo))
        · exact absurd hhi (not_lt.mpr (le_trans h1 hmatch.1))
      · simp only [scanBuckets]
        rw [if_neg hmatch]
        exact ih hrest htail

lemma scanBuckets_of_none (x : Rat) (t : ScoreType)
    (l : List ((Rat × Rat) × Rat))
    (h : ∀ b ∈ l, ¬(b.1.1 ≤ x ∧ x < b.1.2)) :
    scanBuckets x t l =
      if 99 ≤ x then lookupDefault (99, 100) 1000 (SCORE_MAP t) else 0 := by
  induction l with
  | nil => rfl
  | cons b rest ih =>
    simp only [scanBuckets]
    rw [if_neg (h b (List.mem_cons_self b rest))]
    exact ih (fun b2 hb2 => h b2 (List.mem_cons_of_mem b hb2))

/-- Claim C9: for either score type, a value inside one of the half-open
buckets of the fixed table normalizes to that bucket's mapped score; a
value at least 99 normalizes to the top score 1000 even if no bucket
matched; and a value below 99 matching no bucket normalizes to 0. -/
theorem c9_normalizer_buckets (t : ScoreType) (x : Rat) :
    (∀ lo hi v : Rat, ((lo, hi), v) ∈ SCORE_MAP t → lo ≤ x → x < hi →
      normalize_score x t = v) ∧
    (99 ≤ x → normalize_score x t = 1000) ∧
    ((∀ lo hi v : Rat, ((lo, hi), v) ∈ SCORE_MAP t → ¬(lo ≤ x ∧ x < hi)) →
      x < 99 → normalize_score x t = 0) := by
  refine ⟨?_, ?_, ?_⟩
  · intro lo hi v hmem hlo hhi
    unfold normalize_score
    exact scanBuckets_of_mem x t _ (score_map_pairwise t) lo hi v hmem hlo hhi
  · intro h99
    unfold normalize_score
    by_cases h100 : x < 100
    · exact scanBuckets_of_mem x t _ (score_map_pairwise t) 99 100 1000
        (score_map_top_mem t) h99 h100
    · rw [scanBuckets_of_none x t _ (fun b hb => by
          rintro ⟨-, h2⟩
          exact h100 (lt_of_lt_of_le h2 (score_map_upper_le t b hb)))]
      rw [if_pos h99, lookupDefault_top]
  · intro hno hlt
    unfold normalize_score
    rw [scanBuckets_of_none x t _ (fun b hb => by
          have := hno b.1.1 b.1.2 b.2 (by simpa using hb)
          simpa using this)]
    rw [if_neg (not_le.mpr hlt)]

/-- Witness for C9: the value 7 lies in the lp bucket from 5 to 10 and
normalizes to 350. -/
theorem c9_normalizer_buckets_witness :
    normalize_score 7 ScoreType.lp = 350 :=
  (c9_normalizer_buckets ScoreType.lp 7).1 5 10 350 (by decide)
    (by norm_num) (by norm_num)

/-! Lemma locating the first dexes block for C10. -/

lemma find?_first_dexes (pre : List ProtocolData) (d : ProtocolData)
    (suf : List ProtocolData) (hpre : ∀ p ∈ pre, p.protocolType ≠ "dexes")
    (hd : d.protocolType = "dexes") :
    (pre ++ d :: suf).find? (fun p => p.protocolType == "dexes") = some d := by
  induction pre with
  | nil =>
    simp only [List.nil_append]
    exact List.find?_cons_of_pos _ (by simpa using hd)
  | cons a rest ih =>
    simp only [List.cons_append]
    rw [List.find?_cons_of_neg _ (by simpa using hpre a (List.mem_cons_self a rest))]
    exact ih (fun p hp => hpre p (List.mem_cons_of_mem a hp))

/-- Claim C10: when several dexes blocks are present, the engine result is
determined solely by the first one in list order: any change of the
protocol list after the first dexes block (and of the wallet address)
leaves the returned score and features unchanged. -/
theorem c10_first_dexes_block_wins (w w2 : String)
    (pre suf suf2 : List ProtocolData) (d : ProtocolData)
    (hpre : ∀ p ∈ pre, p.protocolType ≠ "dexes")
    (hd : d.protocolType = "dexes") :
    calculate_score { wallet_address := w, data := pre ++ d :: suf } =
      calculate_score { wallet_address := w2, data := pre ++ d :: suf2 } := by
  unfold calculate_score
  rw [show ({ wallet_address := w, data := pre ++ d :: suf } : WalletData).data =
        pre ++ d :: suf from rfl,
      show ({ wallet_address := w2, data := pre ++ d :: suf2 } : WalletData).data =
        pre ++ d :: suf2 from rfl,
      find?_first_dexes pre d suf hpre hd, find?_first_dexes pre d suf2 hpre hd]

def c10Lending : ProtocolData :=
  { protocolType := "lending", transactions := [] }

/-- Witness for C10: dropping a second dexes block after the first leaves
the result unchanged. -/
theorem c10_first_dexes_block_wins_witness :
    calculate_score { wallet_address := "0xa",
                      data := [c10Lending] ++ c3Dex :: [c4Dex] } =
      calculate_score { wallet_address := "0xb",
                        data := [c10Lending] ++ c3Dex :: [] } :=
  c10_first_dexes_block_wins "0xa" "0xb" [c10Lending] [c4Dex] [] c3Dex
    (by decide) rfl

end DeFiScoring
